import Mathlib

/-!
Verification development for the pushpin Type-Polymorphic Document
Resolution & Reactive Subscription Layer.

Strings are embedded as `List Char`.  Components present in the source
tree (`AudioContent.tsx`, `ContactViewer.tsx`) are translated directly;
the codec, type registry, subscription manager and resolver are only
imported by the source files, so they are modelled from the spec, as
marked in their doc comments.
-/

deriving instance DecidableEq for Except

namespace Pushpin

/-- Modelled from the spec: the URL scheme prefix of a PushpinUrl
(`scheme://type/documentId[/extraSegment]*`); the ShareLink module that
implements the codec is not under src/. -/
def urlScheme : List Char := ("pushpin://").data

/-- Modelled from the spec: decoding a malformed string fails with
`InvalidUrl`. -/
inductive UrlError
  | InvalidUrl
deriving DecidableEq

/-- A decoded PushpinUrl tuple: optional declared type, documentId, and
extra path segments. -/
abbrev DecodedUrl := Option (List Char) × List Char × List (List Char)

/-- Well-formedness of an input tuple for the codec: the declared type,
when present, is a nonempty segment without a separator; the documentId
is nonempty and has no separator; extra segments have no separator. -/
@[reducible] def wellFormed (t : Option (List Char)) (d : List Char)
    (xs : List (List Char)) : Prop :=
  (∀ s ∈ t.toList, s ≠ [] ∧ '/' ∉ s) ∧ d ≠ [] ∧ '/' ∉ d ∧ ∀ s ∈ xs, '/' ∉ s

/-- Modelled from the spec: `encode(type?, documentId, extraSegments?)`
produces `scheme://type/documentId[/extraSegment]*`, where an absent
type is written as an empty segment ("infer from content").  The
ShareLink module implementing this is not under src/. -/
def encode (t : Option (List Char)) (d : List Char) (xs : List (List Char)) : List Char :=
  urlScheme ++ List.intercalate (['/']) (t.getD [] :: d :: xs)

/-- Modelled from the spec: `decode(url)` fails with `InvalidUrl` if the
scheme prefix is absent, if `documentId` is empty, or if the string is
not well-formed; otherwise it returns the decoded tuple.  The ShareLink
module implementing this is not under src/. -/
def decode (u : List Char) : Except UrlError DecodedUrl :=
  if urlScheme.isPrefixOf u then
    match (u.drop urlScheme.length).splitOn '/' with
    | t :: d :: xs =>
      if d.isEmpty then Except.error UrlError.InvalidUrl
      else Except.ok (if t.isEmpty then none else some t, d, xs)
    | _ => Except.error UrlError.InvalidUrl
  else Except.error UrlError.InvalidUrl

/-- Rendering contexts, the enumerated tags where a renderer can be
mounted (spec 3; AudioContent.tsx registers `workspace` and `board`,
ContactViewer.tsx mounts children in context `list`). -/
inductive Context
  | workspace
  | board
  | list
  | badge
deriving DecidableEq

/-- Renderer components reachable from the source tree; `generic` stands
for the remaining content-type components not under src/. -/
inductive Renderer
  | audioContent
  | contactViewer
  | generic (tag : List Char)
deriving DecidableEq

/-- A type descriptor as passed to `ContentTypes.register` in
AudioContent.tsx: type key, display name, icon, a context-to-renderer
mapping, and an optional MIME predicate. -/
structure TypeDescriptor where
  type : List Char
  name : List Char
  icon : List Char
  contexts : List (Context × Renderer)
  supportsMimeType : Option (List Char → Bool)

/-- Whether a descriptor's optional MIME predicate accepts a MIME
string; a descriptor with no predicate accepts nothing. -/
def mimeAccepts (d : TypeDescriptor) (m : List Char) : Bool :=
  match d.supportsMimeType with
  | some f => f m
  | none => false

/-- Modelled from the spec: the registry error for a descriptor with an
empty context-variant mapping; the ContentTypes module is not under
src/. -/
inductive RegError
  | InvalidDescriptor
deriving DecidableEq

/-- Modelled from the spec: `register(descriptor)` inserts or replaces
the descriptor under `descriptor.name` (last write wins, position in
registration order kept on replace), rejecting a descriptor whose
context-variant mapping is empty; the ContentTypes module is not under
src/.  A registry state is the list of descriptors in registration
order. -/
def register (reg : List TypeDescriptor) (d : TypeDescriptor) :
    Except RegError (List TypeDescriptor) :=
  if d.contexts.isEmpty then Except.error RegError.InvalidDescriptor
  else if reg.any (fun e => e.type == d.type) then
    Except.ok (reg.map (fun e => if e.type == d.type then d else e))
  else Except.ok (reg ++ [d])

/-- Modelled from the spec: `lookupByName(name)` returns the descriptor
registered under `name`, or absent; the ContentTypes module is not under
src/. -/
def lookupByName (reg : List TypeDescriptor) (n : List Char) : Option TypeDescriptor :=
  reg.find? (fun d => d.type == n)

/-- Modelled from the spec: `lookupByMime(mimeType)` scans registered
descriptors in registration order and returns the first whose MIME
predicate accepts the string, or absent when none match; the
ContentTypes module is not under src/. -/
def lookupByMime (reg : List TypeDescriptor) (m : List Char) : Option TypeDescriptor :=
  reg.find? (fun d => mimeAccepts d m)

/-- A document snapshot as seen by the resolution layer: a version
number and the optional content-derived MIME type (spec 6). -/
structure Snapshot where
  version : Nat
  mimeType : Option (List Char)
deriving DecidableEq

/-- Modelled from the spec: the outcomes of `resolve(url, context)` —
a mounted renderer, the provisional "nothing renderable yet" outcome,
and the recoverable `UnknownType` / `UnsupportedContext` results; the
Content dispatcher module is not under src/. -/
inductive ResolveResult
  | renderer (r : Renderer)
  | provisional
  | unknownType
  | unsupportedContext
  | invalidUrl
deriving DecidableEq

/-- Selects the renderer variant a descriptor registers for a context,
if any. -/
def lookupContext (d : TypeDescriptor) (c : Context) : Option Renderer :=
  (d.contexts.find? (fun p => p.1 == c)).map Prod.snd

/-- Modelled from the spec: `resolve(url, context)` decodes the URL,
determines the descriptor from the declared type or (once a snapshot
exists) from the snapshot's MIME type, and selects the context's
renderer variant; the Content dispatcher module is not under src/. -/
def resolve (reg : List TypeDescriptor) (url : List Char) (c : Context)
    (snap : Option Snapshot) : ResolveResult :=
  match decode url with
  | Except.error _ => ResolveResult.invalidUrl
  | Except.ok (some t, _, _) =>
    match lookupByName reg t with
    | none => ResolveResult.unknownType
    | some d =>
      match lookupContext d c with
      | none => ResolveResult.unsupportedContext
      | some r => ResolveResult.renderer r
  | Except.ok (none, _, _) =>
    match snap with
    | none => ResolveResult.provisional
    | some s =>
      match s.mimeType with
      | none => ResolveResult.unknownType
      | some m =>
        match lookupByMime reg m with
        | none => ResolveResult.unknownType
        | some d =>
          match lookupContext d c with
          | none => ResolveResult.unsupportedContext
          | some r => ResolveResult.renderer r

/-- Modelled from the spec: a subscription created by `bind`, owning one
listener registration; `unbound` records whether `unbindFn` has run;
the Hooks/subscription module is not under src/. -/
structure Subscription where
  unbound : Bool
deriving DecidableEq

/-- Modelled from the spec: the subscription state `bind(documentId)`
creates, with its listener active. -/
def bindSubscription : Subscription := { unbound := false }

/-- Modelled from the spec: `unbindFn()` deregisters the listener. -/
def unbindFn (s : Subscription) : Subscription := { s with unbound := true }

/-- Modelled from the spec: delivery of one store-produced snapshot to a
subscription; an unbound subscription receives nothing. -/
def deliver (s : Subscription) (snap : Snapshot) : Option Snapshot :=
  if s.unbound then none else some snap

/-- Snapshots actually delivered to a subscription from a stream of
store-produced versions. -/
def deliveries (s : Subscription) : List Snapshot → List Snapshot
  | [] => []
  | snap :: rest =>
    match deliver s snap with
    | none => deliveries s rest
    | some x => x :: deliveries s rest

/-- JavaScript truthiness test `!v` for a string-valued field that may
be missing: true when the field is absent (`undefined`/`null`) or the
empty string. -/
def jsFalsyStr : Option (List Char) → Bool
  | none => true
  | some s => s.isEmpty

/-- The audio document shape from AudioContent.tsx: an `AudioDoc` holds
a `hyperfileUrl` blob reference, optional here because the rendered
document may lack the field. -/
structure AudioDoc where
  hyperfileUrl : Option (List Char)
deriving DecidableEq

/-- A rendered DOM result relevant to the claims: the audio element
with its `src`. -/
inductive Rendered
  | audioElement (src : List Char)
deriving DecidableEq

/-- The AudioContent component from AudioContent.tsx, as a function of
the snapshot `useDocument` delivers: no document or a falsy
`hyperfileUrl` renders nothing (`null`); otherwise an audio element
with the blob reference as `src`. -/
def AudioContent (doc : Option AudioDoc) : Option Rendered :=
  match doc with
  | none => none
  | some d =>
    if jsFalsyStr d.hyperfileUrl then none
    else some (Rendered.audioElement (d.hyperfileUrl.getD []))

/-- Static sizing from AudioContent.tsx line 38. -/
def AudioContent.minWidth : Nat := 15

/-- Static sizing from AudioContent.tsx line 39. -/
def AudioContent.minHeight : Nat := 4

/-- Static sizing from AudioContent.tsx line 40. -/
def AudioContent.maxHeight : Nat := 6

/-- Static sizing from AudioContent.tsx line 41. -/
def AudioContent.defaultWidth : Nat := 18

/-- Static sizing from AudioContent.tsx line 42. -/
def AudioContent.defaultHeight : Nat := 4

/-- Static sizing metadata a renderer declares (spec 6): `minWidth`,
`minHeight`, `defaultWidth` and `defaultHeight` are mandatory,
`maxWidth` and `maxHeight` optional. -/
structure Sizing where
  minWidth : Nat
  minHeight : Nat
  maxWidth : Option Nat
  maxHeight : Option Nat
  defaultWidth : Nat
  defaultHeight : Nat
deriving DecidableEq

/-- The sizing metadata the audio renderer declares (AudioContent.tsx
lines 38-42; no `maxWidth` is declared). -/
def audioSizing : Sizing :=
  { minWidth := AudioContent.minWidth
    minHeight := AudioContent.minHeight
    maxWidth := none
    maxHeight := some AudioContent.maxHeight
    defaultWidth := AudioContent.defaultWidth
    defaultHeight := AudioContent.defaultHeight }

/-- JavaScript `s.match(pat)` truthiness for a literal pattern with no
regular-expression metacharacters: true exactly when `pat` occurs as a
contiguous substring of `s` at any position. -/
def jsStringMatch (pat s : List Char) : Bool :=
  match s with
  | [] => pat.isEmpty
  | _ :: rest => pat.isPrefixOf s || jsStringMatch pat rest

/-- The MIME predicate from AudioContent.tsx line 48:
`(mimeType) => !!mimeType.match('audio/')`. -/
def supportsMimeType (m : List Char) : Bool :=
  jsStringMatch (("audio/").data) m

/-- The descriptor AudioContent.tsx lines 50-59 passes to
`ContentTypes.register`. -/
def audioDescriptor : TypeDescriptor :=
  { type := ("audio").data
    name := ("Audio").data
    icon := ("audio").data
    contexts := [(Context.workspace, Renderer.audioContent),
                 (Context.board, Renderer.audioContent)]
    supportsMimeType := some supportsMimeType }

/-- Modelled from the spec: the documented default avatar reference from
the constants module, which is not under src/; its exact value is
immaterial to the claims. -/
def DEFAULT_AVATAR_PATH : List Char := ("../img/default-avatar.png").data

/-- The file document shape from files (ContactViewer.tsx line 49): a
blob reference that may be missing. -/
structure FileDoc where
  hyperfileUrl : Option (List Char)
deriving DecidableEq

/-- The contact document fields ContactViewer.tsx reads: display name,
optional avatar document id, optional device list, optional invites
(contact id paired with the number of shared items). -/
structure ContactDoc where
  name : List Char
  avatarDocId : Option (List Char)
  devices : Option (List (List Char))
  invites : Option (List (List Char × Nat))
deriving DecidableEq

/-- The rendered contact view relevant to the claims: the heading, the
`img` value passed to the avatar badge, and the device/invite data
passed through to the child sections. -/
structure RenderedContact where
  heading : List Char
  avatarImg : List Char
  devices : Option (List (List Char))
  invites : Option (List (List Char × Nat))
deriving DecidableEq

/-- The ContactViewer component from ContactViewer.tsx, as a function of
the contact snapshot and of the store lookup backing the second
`useDocument` call: `avatarImageDoc` is looked up from
`doc && doc.avatarDocId`, `avatarHyperfileUrl` destructures its
`hyperfileUrl` defaulting to null, and the badge image is
`avatarHyperfileUrl || DEFAULT_AVATAR_PATH`. -/
def ContactViewer (doc : Option ContactDoc) (store : List Char → Option FileDoc) :
    Option RenderedContact :=
  let avatarImageDoc : Option FileDoc := (doc.bind (fun d => d.avatarDocId)).bind store
  let avatarHyperfileUrl : Option (List Char) := avatarImageDoc.bind (fun f => f.hyperfileUrl)
  match doc with
  | none => none
  | some d =>
    some { heading := d.name
           avatarImg :=
             if jsFalsyStr avatarHyperfileUrl then DEFAULT_AVATAR_PATH
             else avatarHyperfileUrl.getD []
           devices := d.devices
           invites := d.invites }

/-- Decoding after appending the scheme to separator-free segments
recovers the segment list; the documentId segment must be nonempty. -/
theorem decode_scheme_segments (ts d : List Char) (xs : List (List Char))
    (hm : ∀ l ∈ (ts :: d :: xs), '/' ∉ l) (hd : d ≠ []) :
    decode (urlScheme ++ List.intercalate (['/']) (ts :: d :: xs)) =
      Except.ok ((if ts.isEmpty then none else some ts), d, xs) := by
  have hsplit := List.splitOn_intercalate (ts :: d :: xs) '/' hm (by simp)
  have hpre : urlScheme.isPrefixOf
      (urlScheme ++ List.intercalate (['/']) (ts :: d :: xs)) = true := by
    simp
  unfold decode
  rw [if_pos hpre, List.drop_left, hsplit]
  cases d with
  | nil => exact absurd rfl hd
  | cons a as => rfl

/-- C1: for every well-formed tuple (type?, documentId, extraSegments?),
decoding the PushpinUrl produced by encoding that tuple yields the same
tuple back: decode (encode x) = x. -/
theorem decode_encode (t : Option (List Char)) (d : List Char) (xs : List (List Char))
    (h : wellFormed t d xs) :
    decode (encode t d xs) = Except.ok (t, d, xs) := by
  have hm : ∀ l ∈ (t.getD [] :: d :: xs), '/' ∉ l := by
    intro l hl
    rcases List.mem_cons.mp hl with rfl | hl'
    · cases t with
      | none => simp
      | some s => exact (h.1 s (by simp)).2
    · rcases List.mem_cons.mp hl' with rfl | hl''
      · exact h.2.2.1
      · exact h.2.2.2 l hl''
  have hc := decode_scheme_segments (t.getD []) d xs hm h.2.1
  cases t with
  | none => exact hc
  | some s =>
    cases s with
    | nil => exact absurd rfl (h.1 [] (by simp)).1
    | cons b bs => exact hc

/-- Witness for C1 at a concrete well-formed tuple. -/
theorem decode_encode_witness :
    wellFormed (some (("audio").data)) (("doc123").data) [("x").data] ∧
    decode (encode (some (("audio").data)) (("doc123").data) [("x").data]) =
      Except.ok (some (("audio").data), ("doc123").data, [("x").data]) :=
  ⟨by decide, decode_encode _ _ _ (by decide)⟩

/-- C2: decode fails with InvalidUrl on every string lacking the scheme
prefix, never returns an empty documentId, and fails on the concrete
malformed inputs "not-a-valid-url" and "pushpin://audio/" (empty
documentId segment). -/
theorem decode_rejects_malformed :
    (∀ u, urlScheme.isPrefixOf u = false → decode u = Except.error UrlError.InvalidUrl) ∧
    (∀ u t d xs, decode u = Except.ok (t, d, xs) → d ≠ []) ∧
    decode (("not-a-valid-url").data) = Except.error UrlError.InvalidUrl ∧
    decode (("pushpin://audio/").data) = Except.error UrlError.InvalidUrl := by
  refine ⟨?_, ?_, by decide, by decide⟩
  · intro u hu
    unfold decode
    rw [if_neg ?_]
    rw [hu]
    exact Bool.false_ne_true
  · intro u t d xs hok
    unfold decode at hok
    split at hok
    · split at hok
      · next t' d' xs' =>
        split at hok
        · exact absurd hok (by simp)
        · next hne =>
          simp only [Except.ok.injEq, Prod.mk.injEq] at hok
          obtain ⟨-, hd, -⟩ := hok
          subst hd
          simpa using hne
      · exact absurd hok (by simp)
    · exact absurd hok (by simp)

/-- Witness for C2 at a concrete input lacking the scheme prefix. -/
theorem decode_rejects_malformed_witness :
    decode (("xyz").data) = Except.error UrlError.InvalidUrl :=
  decode_rejects_malformed.1 (("xyz").data) (by decide)

/-- C3: lookupByMime is absent exactly when no registered descriptor's
matcher accepts the MIME string, and returns a descriptor exactly when
that descriptor accepts it and every descriptor registered earlier
rejects it (first match in registration order). -/
theorem lookupByMime_first_match (reg : List TypeDescriptor) (m : List Char) :
    (lookupByMime reg m = none ↔ ∀ d ∈ reg, mimeAccepts d m = false) ∧
    (∀ d, lookupByMime reg m = some d ↔
      mimeAccepts d m = true ∧
      ∃ pre post, reg = pre ++ d :: post ∧ ∀ e ∈ pre, mimeAccepts e m = false) := by
  constructor
  · rw [lookupByMime, List.find?_eq_none]
    simp
  · intro d
    rw [lookupByMime, List.find?_eq_some]
    simp

/-- C4: when the URL's declared type resolves to a descriptor whose
variant mapping does not include the requested context, resolve returns
the recoverable UnsupportedContext result (resolve is a total
function, so no exception can escape). -/
theorem resolve_unsupported_context (reg : List TypeDescriptor) (url : List Char)
    (c : Context) (snap : Option Snapshot) (d : TypeDescriptor)
    (hctx : lookupContext d c = none) :
    (∀ t docId xs, decode url = Except.ok (some t, docId, xs) →
       lookupByName reg t = some d →
       resolve reg url c snap = ResolveResult.unsupportedContext) ∧
    (∀ docId xs s m, decode url = Except.ok (none, docId, xs) →
       snap = some s → s.mimeType = some m → lookupByMime reg m = some d →
       resolve reg url c snap = ResolveResult.unsupportedContext) := by
  constructor
  · intro t docId xs hdec hname
    simp only [resolve, hdec, hname, hctx]
  · intro docId xs s m hdec hsnap hmime hlook
    simp only [resolve, hdec, hsnap, hmime, hlook, hctx]

/-- Witness for C4: the audio descriptor registers only the workspace
and board contexts, so resolving an audio URL in context list is
UnsupportedContext. -/
theorem resolve_unsupported_context_witness :
    resolve [audioDescriptor] (("pushpin://audio/doc123").data) Context.list none =
      ResolveResult.unsupportedContext :=
  (resolve_unsupported_context [audioDescriptor] _ Context.list none
      audioDescriptor rfl).1
    (("audio").data) (("doc123").data) [] (by decide) rfl

/-- Substring search performed by a literal JavaScript match pattern:
it succeeds exactly when the pattern occurs contiguously somewhere. -/
theorem jsStringMatch_eq_true_iff (pat s : List Char) :
    jsStringMatch pat s = true ↔ pat <:+: s := by
  induction s with
  | nil =>
    simp [jsStringMatch, List.isEmpty_iff]
  | cons c rest ih =>
    rw [jsStringMatch]
    rw [ List.infix_cons_iff]
    simp [ih, List.isPrefixOf_iff_prefix]

/-- C9: the audio type's supportsMimeType accepts a MIME string exactly
when "audio/" occurs as a contiguous substring at any position. -/
theorem supportsMimeType_substring (m : List Char) :
    supportsMimeType m = true ↔ ∃ pre post, pre ++ ("audio/").data ++ post = m :=
  jsStringMatch_eq_true_iff (("audio/").data) m

/-- C7: after unbindFn runs, no snapshot is ever delivered to that
subscription again, whatever new versions the store produces, and
unbindFn is idempotent. -/
theorem unbind_idempotent_no_delivery :
    (∀ s snaps, deliveries (unbindFn s) snaps = []) ∧
    (∀ s, unbindFn (unbindFn s) = unbindFn s) := by
  constructor
  · intro s snaps
    induction snaps with
    | nil => rfl
    | cons a rest ih => simpa [deliveries, deliver, unbindFn] using ih
  · intro s
    rfl

/-- C8: the audio renderer declares the mandatory sizing metadata with
minWidth 15, minHeight 4, defaultWidth 18, defaultHeight 4, the
optional maxHeight 6, and no maxWidth. -/
theorem audio_sizing_declared :
    audioSizing.minWidth = 15 ∧ audioSizing.minHeight = 4 ∧
    audioSizing.maxWidth = none ∧ audioSizing.maxHeight = some 6 ∧
    audioSizing.defaultWidth = 18 ∧ audioSizing.defaultHeight = 4 :=
  ⟨rfl, rfl, rfl, rfl, rfl, rfl⟩

/-- C10: a loaded audio snapshot whose hyperfileUrl field is absent or
falsy renders nothing (null) rather than an audio element. -/
theorem audio_no_render_without_hyperfile (d : AudioDoc)
    (h : jsFalsyStr d.hyperfileUrl = true) :
    AudioContent (some d) = none := by
  simp [AudioContent, h]

/-- Witness for C10 at the absent and at the empty blob reference. -/
theorem audio_no_render_without_hyperfile_witness :
    AudioContent (some { hyperfileUrl := none }) = none ∧
    AudioContent (some { hyperfileUrl := some [] }) = none :=
  ⟨audio_no_render_without_hyperfile _ (by decide),
   audio_no_render_without_hyperfile _ (by decide)⟩

/-- C6: a contact document with no avatarDocId renders successfully with
the documented default avatar value as the badge image. -/
theorem contact_avatar_fallback (d : ContactDoc) (store : List Char → Option FileDoc)
    (h : d.avatarDocId = none) :
    ContactViewer (some d) store =
      some { heading := d.name, avatarImg := DEFAULT_AVATAR_PATH,
             devices := d.devices, invites := d.invites } := by
  simp [ContactViewer, h, jsFalsyStr]

/-- Witness for C6 at a concrete contact document without an avatar. -/
theorem contact_avatar_fallback_witness :
    ContactViewer
        (some { name := ("alice").data, avatarDocId := none,
                devices := none, invites := none })
        (fun _ => none) =
      some { heading := ("alice").data, avatarImg := DEFAULT_AVATAR_PATH,
             devices := none, invites := none } :=
  contact_avatar_fallback _ _ rfl

/-- C5: while the snapshot is absent, resolution of a URL with no
declared type is provisional — nothing renderable, not an error — and
the audio renderer given an absent document renders nothing. -/
theorem provisional_until_snapshot (reg : List TypeDescriptor) (url : List Char)
    (c : Context) (docId : List Char) (xs : List (List Char))
    (hdec : decode url = Except.ok (none, docId, xs)) :
    resolve reg url c none = ResolveResult.provisional ∧ AudioContent none = none := by
  refine ⟨?_, rfl⟩
  simp only [resolve, hdec]

/-- Witness for C5 at a concrete type-free URL and the audio registry. -/
theorem provisional_until_snapshot_witness :
    resolve [audioDescriptor] (("pushpin:///doc123").data) Context.workspace none =
      ResolveResult.provisional ∧
    AudioContent none = none :=
  provisional_until_snapshot [audioDescriptor] _ Context.workspace
    (("doc123").data) [] (by decide)

end Pushpin
